import Mathlib

/-!
Shallow embedding of the DualWasteClassifier from waste-classifier.py and a
verification of its specified behaviour.  The neural backends (the ResNet and
CLIP forward passes and the PIL decoders) are black boxes and appear as
function parameters; everything after a forward pass (argmax selection, label
lookup, confidence rounding, category extraction, result formatting) is
translated directly from the source.
-/

/-- Error taxonomy for failures raised by the classifier code: decode or
malformed-input failures are InputError, backend forward-pass failures are
InferenceError, construction-time weight-loading failures are ModelLoadError. -/
inductive ClassifierError where
  | modelLoadError
  | inputError
  | inferenceError
  deriving DecidableEq

/-- A classification result: the dict with keys category and confidence that
both prediction methods return; confidence is a percentage rounded to two
decimal places. -/
structure Prediction where
  category : String
  confidence : ℚ
  deriving DecidableEq

/-- One step of the running maximum: combine the head element with the result
on the tail; the head wins on ties, so the reported index is the index of the
first occurrence of the maximum. -/
def torchMaxStep (x : ℚ) : Option (ℚ × Nat) → ℚ × Nat
  | none => (x, 0)
  | some (v, i) => if x < v then (v, i + 1) else (x, 0)

/-- Model of torch.max(probs, 0): the maximum value of the tensor together
with the index of its first occurrence; none on an empty tensor, where
torch.max raises. -/
def torchMax : List ℚ → Option (ℚ × Nat)
  | [] => none
  | x :: xs => some (torchMaxStep x (torchMax xs))

/-- Model of the Python expression round(x, 2). -/
def round2 (q : ℚ) : ℚ := ((round (q * 100) : ℤ) : ℚ) / 100

/-- Decimal rendering of an integer number of hundredths: at most two
fractional digits, at least one, as Python prints a float that carries at
most two decimals. -/
def formatHundredths (n : ℤ) : String :=
  let ip : ℤ := n / 100
  let fr : Nat := (n % 100).toNat
  if fr % 10 == 0 then toString ip ++ "." ++ toString (fr / 10)
  else if fr < 10 then toString ip ++ ".0" ++ toString fr
  else toString ip ++ "." ++ toString fr

/-- Rendering of a two-decimal confidence value, as the f-string in
classify_image renders the float produced by round(confidence, 2). -/
def formatConf (q : ℚ) : String := formatHundredths (round (q * 100))

/-- The first field of a Python split on a separator: everything strictly
before the first occurrence of sep in s, or all of s when sep does not occur
in s. -/
def splitFirstAux (sep : List Char) : List Char → List Char
  | [] => []
  | c :: rest =>
    if sep.isPrefixOf (c :: rest) then []
    else c :: splitFirstAux sep rest

/-- Model of the Python expression s.split(sep)[0]. -/
def pySplitHead (sep s : String) : String := String.mk (splitFirstAux sep.data s.data)

/-- The fixed category list assigned to self.clip_categories in the
constructor of DualWasteClassifier. -/
def clip_categories : List String := [
  "recyclable plastic waste like plastic bottles and containers",
  "paper waste like newspapers and cardboard",
  "organic waste like food scraps and plant materials",
  "electronic waste like old phones and computers",
  "glass waste like bottles and jars",
  "metal waste like cans and foil",
  "hazardous waste like batteries and chemicals",
  "general non-recyclable waste"]

/-- The object state of a DualWasteClassifier that the classification methods
can read or write: the clip_categories attribute set by the constructor.  The
loaded model weights are immutable and live inside the backend functions. -/
structure ClassifierState where
  clip_categories : List String
  deriving DecidableEq

/-- The state of a freshly constructed DualWasteClassifier. -/
def initState : ClassifierState := ⟨clip_categories⟩

/-- The argument a caller can hand to the coordinator: a filesystem path, an
already decoded in-memory image, or a readable byte buffer. -/
inductive ImageRef (Img : Type) where
  | path (p : String)
  | decoded (image : Img)
  | bytes (buffer : List Nat)

/-- Model of PIL Image.open followed by convert to RGB, as written at the top
of classify_image.  Image.open accepts a filename or a readable file object
and hands it to the black-box decoder; an already decoded Image object is
neither, so the call raises, modelled as InputError. -/
def image_open {Img : Type} (decodePath : String → Except ClassifierError Img)
    (decodeBytes : List Nat → Except ClassifierError Img) :
    ImageRef Img → Except ClassifierError Img
  | ImageRef.path p => decodePath p
  | ImageRef.bytes b => decodeBytes b
  | ImageRef.decoded _ => Except.error ClassifierError.inputError

/-- The pure tail of get_resnet_prediction, after the backend has produced the
softmax probability vector: take torch.max, look the winning index up in the
id2label table of the model config, and round the confidence. -/
def resnetFromProbs (id2label : Nat → String) (probs : List ℚ) :
    Except ClassifierError Prediction :=
  match torchMax probs with
  | none => Except.error ClassifierError.inferenceError
  | some (maxProb, maxIdx) =>
    Except.ok ⟨id2label maxIdx, round2 (maxProb * 100)⟩

/-- The pure tail of get_clip_prediction, after the backend has produced the
softmax probability vector over the category list: take torch.max, index the
category list by the winning index, split the description on the separator
and keep the first field, and round the confidence.  On an empty list
torch.max raises; the failure is caused by the empty input, hence
InputError. -/
def clipFromProbs (cats : List String) (probs : List ℚ) :
    Except ClassifierError Prediction :=
  match torchMax probs with
  | none => Except.error ClassifierError.inputError
  | some (maxProb, maxIdx) =>
    match cats[maxIdx]? with
    | none => Except.error ClassifierError.inputError
    | some desc =>
      Except.ok ⟨pySplitHead " like " desc, round2 (maxProb * 100)⟩

/-- Method get_resnet_prediction: run the ResNet backend on the image and
post-process its probability vector.  The method reads the object state and
returns it unchanged. -/
def get_resnet_prediction {Img : Type} (id2label : Nat → String)
    (resnetP : Img → Except ClassifierError (List ℚ))
    (st : ClassifierState) (image : Img) :
    Except ClassifierError Prediction × ClassifierState :=
  match resnetP image with
  | Except.error e => (Except.error e, st)
  | Except.ok probs => (resnetFromProbs id2label probs, st)

/-- Method get_clip_prediction: run the CLIP backend on the image and the
clip_categories attribute, and post-process its probability vector.  The
method reads the object state and returns it unchanged. -/
def get_clip_prediction {Img : Type}
    (clipP : Img → List String → Except ClassifierError (List ℚ))
    (st : ClassifierState) (image : Img) :
    Except ClassifierError Prediction × ClassifierState :=
  match clipP image st.clip_categories with
  | Except.error e => (Except.error e, st)
  | Except.ok probs => (clipFromProbs st.clip_categories probs, st)

/-- The combined result sentence built at the end of classify_image. -/
def formatResult (rp cp : Prediction) : String :=
  "This is " ++ rp.category ++ " with " ++ formatConf rp.confidence ++
    "% confidence " ++ "and the waste type is " ++ cp.category

/-- Method classify_image: decode the argument to an RGB image once, run the
ResNet prediction, then the CLIP prediction, on that same image, and format
the combined sentence.  Any raised error aborts the call and propagates. -/
def classify_image {Img : Type} (decodePath : String → Except ClassifierError Img)
    (decodeBytes : List Nat → Except ClassifierError Img)
    (id2label : Nat → String)
    (resnetP : Img → Except ClassifierError (List ℚ))
    (clipP : Img → List String → Except ClassifierError (List ℚ))
    (st : ClassifierState) (ref : ImageRef Img) :
    Except ClassifierError String × ClassifierState :=
  match image_open decodePath decodeBytes ref with
  | Except.error e => (Except.error e, st)
  | Except.ok image =>
    match get_resnet_prediction id2label resnetP st image with
    | (Except.error e, st1) => (Except.error e, st1)
    | (Except.ok rp, st1) =>
      match get_clip_prediction clipP st1 image with
      | (Except.error e, st2) => (Except.error e, st2)
      | (Except.ok cp, st2) => (Except.ok (formatResult rp cp), st2)

/-- Spec-side definition, following the spec words only: the index of the
first occurrence of the separator inside the description, that is the least
index at which the separator starts, if any. -/
def specFirstOcc (sep s : List Char) : Option Nat :=
  (List.range (s.length + 1)).find? (fun i => sep.isPrefixOf (s.drop i))

/-- Spec-side definition, following the spec words only: the clause preceding
the first occurrence of the literal separator in the description, or the
whole description verbatim when the separator does not occur in it. -/
def specExtract (sep s : List Char) : List Char :=
  match specFirstOcc sep s with
  | some i => s.take i
  | none => s

/-- String wrapper of the spec-side category extraction. -/
def specExtractStr (sep s : String) : String := String.mk (specExtract sep.data s.data)

lemma pySplitHead_plastic :
    pySplitHead " like " "recyclable plastic waste like plastic bottles and containers" =
      "recyclable plastic waste" := by decide

lemma formatConf_8743 : formatConf ((8743 : ℚ) / 100) = "87.43" := by
  have h : round ((8743 : ℚ) / 100 * 100) = 8743 := by norm_num
  rw [formatConf, h]; decide

lemma formatConf_100 : formatConf (100 : ℚ) = "100.0" := by
  have h : round ((100 : ℚ) * 100) = 10000 := by norm_num
  rw [formatConf, h]; decide

lemma torchMax_eq_none_iff (l : List ℚ) : torchMax l = none ↔ l = [] := by
  cases l with
  | nil => simp [torchMax]
  | cons x xs => simp [torchMax]

lemma torchMax_spec (l : List ℚ) (v : ℚ) (i : Nat) (h : torchMax l = some (v, i)) :
    ∃ hi : i < l.length, l.get ⟨i, hi⟩ = v ∧
      (∀ j (hj : j < l.length), l.get ⟨j, hj⟩ ≤ v) ∧
      (∀ j (hj : j < l.length), j < i → l.get ⟨j, hj⟩ < v) := by
  induction l generalizing v i with
  | nil => simp [torchMax] at h
  | cons x xs ih =>
    rw [torchMax] at h
    cases hx : torchMax xs with
    | none =>
      have hnil : xs = [] := (torchMax_eq_none_iff xs).mp hx
      subst hnil
      rw [hx] at h
      rw [torchMaxStep] at h
      simp only [Option.some.injEq, Prod.mk.injEq] at h
      obtain ⟨rfl, rfl⟩ := h
      refine ⟨by simp, by simp, ?_, ?_⟩
      · intro j hj
        have hj0 : j = 0 := by
          have : j < 1 := by simpa using hj
          omega
        subst hj0
        simp
      · intro j hj hji
        exact absurd hji (Nat.not_lt_zero j)
    | some vi =>
      obtain ⟨v0, i0⟩ := vi
      rw [hx] at h
      rw [torchMaxStep] at h
      obtain ⟨hi0, hget0, hmax0, hfirst0⟩ := ih v0 i0 hx
      by_cases hlt : x < v0
      · rw [if_pos hlt] at h
        simp only [Option.some.injEq, Prod.mk.injEq] at h
        obtain ⟨rfl, rfl⟩ := h
        refine ⟨by simpa using Nat.succ_lt_succ hi0, by simpa using hget0, ?_, ?_⟩
        · intro j hj
          cases j with
          | zero => simpa using le_of_lt hlt
          | succ k =>
            have hk : k < xs.length := by simpa using hj
            simpa using hmax0 k hk
        · intro j hj hji
          cases j with
          | zero => simpa using hlt
          | succ k =>
            have hk : k < xs.length := by simpa using hj
            have hki : k < i0 := by omega
            simpa using hfirst0 k hk hki
      · rw [if_neg hlt] at h
        simp only [Option.some.injEq, Prod.mk.injEq] at h
        obtain ⟨rfl, rfl⟩ := h
        refine ⟨by simp, by simp, ?_, ?_⟩
        · intro j hj
          cases j with
          | zero => simp
          | succ k =>
            have hk : k < xs.length := by simpa using hj
            have hkk := hmax0 k hk
            have hvx : v0 ≤ x := not_lt.mp hlt
            simpa using le_trans hkk hvx
        · intro j hj hji
          exact absurd hji (Nat.not_lt_zero j)

lemma torchMax_isSome (l : List ℚ) (hne : l ≠ []) : ∃ v i, torchMax l = some (v, i) := by
  cases htm : torchMax l with
  | none => exact absurd ((torchMax_eq_none_iff l).mp htm) hne
  | some vi =>
    obtain ⟨v, i⟩ := vi
    exact ⟨v, i, rfl⟩

lemma find_map_succ (p : Nat → Bool) (l : List Nat) :
    (l.map Nat.succ).find? p = Option.map Nat.succ (l.find? (fun i => p (i + 1))) := by
  induction l with
  | nil => simp
  | cons a l ih =>
    simp only [List.map_cons, List.find?_cons]
    cases hpa : p (a + 1) with
    | false =>
      have hpa2 : p a.succ = false := by simpa [Nat.succ_eq_add_one] using hpa
      simp [hpa, hpa2, ih]
    | true =>
      have hpa2 : p a.succ = true := by simpa [Nat.succ_eq_add_one] using hpa
      simp [hpa, hpa2]

lemma specFirstOcc_nil (sep : List Char) (hsep : sep ≠ []) : specFirstOcc sep [] = none := by
  obtain ⟨c, cs, rfl⟩ : ∃ c cs, sep = c :: cs := by
    cases sep with
    | nil => exact absurd rfl hsep
    | cons c cs => exact ⟨c, cs, rfl⟩
  simp [specFirstOcc, List.find?, List.isPrefixOf]

lemma specFirstOcc_cons (sep : List Char) (c : Char) (rest : List Char) :
    specFirstOcc sep (c :: rest) =
      (if sep.isPrefixOf (c :: rest) then some 0
       else Option.map Nat.succ (specFirstOcc sep rest)) := by
  unfold specFirstOcc
  rw [show (c :: rest).length + 1 = (rest.length + 1) + 1 by simp]
  rw [List.range_succ_eq_map, List.find?_cons]
  cases hp : sep.isPrefixOf (c :: rest) with
  | false =>
    simp only [List.drop_zero, hp, if_false]
    rw [find_map_succ]
    simp [List.drop_succ_cons]
  | true =>
    simp [hp]

lemma round2_bounds (q : ℚ) (h0 : 0 ≤ q) (h100 : q ≤ 100) :
    0 ≤ round2 q ∧ round2 q ≤ 100 := by
  have hlo : (0 : ℤ) ≤ round (q * 100) := by
    have h1 : round (0 : ℚ) ≤ round (q * 100) := by
      rw [round_eq, round_eq]
      exact Int.floor_le_floor (by linarith)
    simpa using h1
  have hhi : round (q * 100) ≤ 10000 := by
    have h2 : round (q * 100) ≤ round ((10000 : ℚ)) := by
      rw [round_eq, round_eq]
      exact Int.floor_le_floor (by linarith)
    have h3 : round ((10000 : ℚ)) = 10000 := by norm_num
    omega
  constructor
  · apply div_nonneg _ (by norm_num : (0 : ℚ) ≤ 100)
    exact_mod_cast hlo
  · rw [round2, div_le_iff₀ (by norm_num : (0 : ℚ) < 100)]
    calc ((round (q * 100) : ℤ) : ℚ) ≤ ((10000 : ℤ) : ℚ) := by exact_mod_cast hhi
      _ = 100 * 100 := by norm_num

lemma resnetFromProbs_ok (id2label : Nat → String) (probs : List ℚ) (p : Prediction)
    (h : resnetFromProbs id2label probs = Except.ok p) :
    ∃ v i, torchMax probs = some (v, i) ∧ p.category = id2label i ∧
      p.confidence = round2 (v * 100) := by
  unfold resnetFromProbs at h
  cases htm : torchMax probs with
  | none =>
    rw [htm] at h
    simp at h
  | some vi =>
    obtain ⟨v, i⟩ := vi
    rw [htm] at h
    simp only [Except.ok.injEq] at h
    subst h
    exact ⟨v, i, rfl, rfl, rfl⟩

lemma clipFromProbs_ok (cats : List String) (probs : List ℚ) (p : Prediction)
    (h : clipFromProbs cats probs = Except.ok p) :
    ∃ v i, torchMax probs = some (v, i) ∧ ∃ hc : i < cats.length,
      p.category = pySplitHead " like " (cats.get ⟨i, hc⟩) ∧
      p.confidence = round2 (v * 100) := by
  cases htm : torchMax probs with
  | none =>
    simp [clipFromProbs, htm] at h
  | some vi =>
    obtain ⟨v, i⟩ := vi
    cases hidx : cats[i]? with
    | none =>
      simp [clipFromProbs, htm, hidx] at h
    | some desc =>
      simp only [clipFromProbs, htm, hidx, Except.ok.injEq] at h
      subst h
      have hc : i < cats.length := by
        by_contra hge
        rw [List.getElem?_eq_none (by omega)] at hidx
        exact absurd hidx (by simp)
      have hdesc : cats.get ⟨i, hc⟩ = desc := by
        have hg : cats[i]? = some cats[i] := List.getElem?_eq_getElem hc
        rw [hg] at hidx
        simpa [List.get_eq_getElem] using hidx
      exact ⟨v, i, rfl, hc, by rw [hdesc], rfl⟩

lemma get_resnet_prediction_state {Img : Type} (id2label : Nat → String)
    (resnetP : Img → Except ClassifierError (List ℚ))
    (st : ClassifierState) (image : Img) :
    (get_resnet_prediction id2label resnetP st image).2 = st := by
  unfold get_resnet_prediction
  cases resnetP image <;> rfl

lemma get_clip_prediction_state {Img : Type}
    (clipP : Img → List String → Except ClassifierError (List ℚ))
    (st : ClassifierState) (image : Img) :
    (get_clip_prediction clipP st image).2 = st := by
  unfold get_clip_prediction
  cases clipP image st.clip_categories <;> rfl

lemma classify_image_state {Img : Type}
    (decodePath : String → Except ClassifierError Img)
    (decodeBytes : List Nat → Except ClassifierError Img)
    (id2label : Nat → String)
    (resnetP : Img → Except ClassifierError (List ℚ))
    (clipP : Img → List String → Except ClassifierError (List ℚ))
    (st : ClassifierState) (ref : ImageRef Img) :
    (classify_image decodePath decodeBytes id2label resnetP clipP st ref).2 = st := by
  cases himg : image_open decodePath decodeBytes ref with
  | error e => simp [classify_image, himg]
  | ok image =>
    cases hr : resnetP image with
    | error e => simp [classify_image, get_resnet_prediction, himg, hr]
    | ok rprobs =>
      cases hrp : resnetFromProbs id2label rprobs with
      | error e => simp [classify_image, get_resnet_prediction, himg, hr, hrp]
      | ok rp =>
        cases hc : clipP image st.clip_categories with
        | error e =>
          simp [classify_image, get_resnet_prediction, get_clip_prediction,
            himg, hr, hrp, hc]
        | ok cprobs =>
          cases hcp : clipFromProbs st.clip_categories cprobs with
          | error e =>
            simp [classify_image, get_resnet_prediction, get_clip_prediction,
              himg, hr, hrp, hc, hcp]
          | ok cp =>
            simp [classify_image, get_resnet_prediction, get_clip_prediction,
              himg, hr, hrp, hc, hcp]

lemma classify_image_eq_ok {Img : Type}
    (decodePath : String → Except ClassifierError Img)
    (decodeBytes : List Nat → Except ClassifierError Img)
    (id2label : Nat → String)
    (resnetP : Img → Except ClassifierError (List ℚ))
    (clipP : Img → List String → Except ClassifierError (List ℚ))
    (st : ClassifierState) (ref : ImageRef Img) (img : Img)
    (rprobs cprobs : List ℚ) (rp cp : Prediction)
    (himg : image_open decodePath decodeBytes ref = Except.ok img)
    (hr : resnetP img = Except.ok rprobs)
    (hrp : resnetFromProbs id2label rprobs = Except.ok rp)
    (hc : clipP img st.clip_categories = Except.ok cprobs)
    (hcp : clipFromProbs st.clip_categories cprobs = Except.ok cp) :
    classify_image decodePath decodeBytes id2label resnetP clipP st ref =
      (Except.ok (formatResult rp cp), st) := by
  simp only [classify_image, get_resnet_prediction, get_clip_prediction,
    himg, hr, hrp, hc, hcp]

lemma classify_image_ok {Img : Type}
    (decodePath : String → Except ClassifierError Img)
    (decodeBytes : List Nat → Except ClassifierError Img)
    (id2label : Nat → String)
    (resnetP : Img → Except ClassifierError (List ℚ))
    (clipP : Img → List String → Except ClassifierError (List ℚ))
    (st : ClassifierState) (ref : ImageRef Img) (s : String) (st2 : ClassifierState)
    (h : classify_image decodePath decodeBytes id2label resnetP clipP st ref =
      (Except.ok s, st2)) :
    st2 = st ∧ ∃ img rprobs rp cprobs cp,
      image_open decodePath decodeBytes ref = Except.ok img ∧
      resnetP img = Except.ok rprobs ∧
      resnetFromProbs id2label rprobs = Except.ok rp ∧
      clipP img st.clip_categories = Except.ok cprobs ∧
      clipFromProbs st.clip_categories cprobs = Except.ok cp ∧
      s = formatResult rp cp := by
  cases himg : image_open decodePath decodeBytes ref with
  | error e =>
    simp [classify_image, himg] at h
  | ok image =>
    cases hr : resnetP image with
    | error e =>
      simp [classify_image, get_resnet_prediction, himg, hr] at h
    | ok rprobs =>
      cases hrp : resnetFromProbs id2label rprobs with
      | error e =>
        simp [classify_image, get_resnet_prediction, himg, hr, hrp] at h
      | ok rp =>
        cases hc : clipP image st.clip_categories with
        | error e =>
          simp [classify_image, get_resnet_prediction, get_clip_prediction,
            himg, hr, hrp, hc] at h
        | ok cprobs =>
          cases hcp : clipFromProbs st.clip_categories cprobs with
          | error e =>
            simp [classify_image, get_resnet_prediction, get_clip_prediction,
              himg, hr, hrp, hc, hcp] at h
          | ok cp =>
            simp only [classify_image, get_resnet_prediction, get_clip_prediction,
              himg, hr, hrp, hc, hcp, Prod.mk.injEq, Except.ok.injEq] at h
            obtain ⟨hs, hst⟩ := h
            exact ⟨hst.symm, image, rprobs, rp, cprobs, cp, rfl, hr, hrp, hc, hcp, hs.symm⟩

lemma classify_image_decode_error {Img : Type}
    (decodePath : String → Except ClassifierError Img)
    (decodeBytes : List Nat → Except ClassifierError Img)
    (id2label : Nat → String)
    (resnetP : Img → Except ClassifierError (List ℚ))
    (clipP : Img → List String → Except ClassifierError (List ℚ))
    (st : ClassifierState) (ref : ImageRef Img) (e : ClassifierError)
    (h : image_open decodePath decodeBytes ref = Except.error e) :
    classify_image decodePath decodeBytes id2label resnetP clipP st ref =
      (Except.error e, st) := by
  simp only [classify_image, h]

lemma classify_image_resnet_error {Img : Type}
    (decodePath : String → Except ClassifierError Img)
    (decodeBytes : List Nat → Except ClassifierError Img)
    (id2label : Nat → String)
    (resnetP : Img → Except ClassifierError (List ℚ))
    (clipP : Img → List String → Except ClassifierError (List ℚ))
    (st : ClassifierState) (ref : ImageRef Img) (img : Img) (e : ClassifierError)
    (himg : image_open decodePath decodeBytes ref = Except.ok img)
    (hr : resnetP img = Except.error e) :
    classify_image decodePath decodeBytes id2label resnetP clipP st ref =
      (Except.error e, st) := by
  simp only [classify_image, get_resnet_prediction, himg, hr]

lemma classify_image_clip_error {Img : Type}
    (decodePath : String → Except ClassifierError Img)
    (decodeBytes : List Nat → Except ClassifierError Img)
    (id2label : Nat → String)
    (resnetP : Img → Except ClassifierError (List ℚ))
    (clipP : Img → List String → Except ClassifierError (List ℚ))
    (st : ClassifierState) (ref : ImageRef Img) (img : Img)
    (rprobs : List ℚ) (rp : Prediction) (e : ClassifierError)
    (himg : image_open decodePath decodeBytes ref = Except.ok img)
    (hr : resnetP img = Except.ok rprobs)
    (hrp : resnetFromProbs id2label rprobs = Except.ok rp)
    (hc : clipP img st.clip_categories = Except.error e) :
    classify_image decodePath decodeBytes id2label resnetP clipP st ref =
      (Except.error e, st) := by
  simp only [classify_image, get_resnet_prediction, get_clip_prediction,
    himg, hr, hrp, hc]

lemma splitFirstAux_eq_specExtract (sep : List Char) (hsep : sep ≠ []) (s : List Char) :
    splitFirstAux sep s = specExtract sep s := by
  induction s with
  | nil => simp [splitFirstAux, specExtract, specFirstOcc_nil sep hsep]
  | cons c rest ih =>
    cases hp : sep.isPrefixOf (c :: rest) with
    | true =>
      rw [splitFirstAux, if_pos hp]
      rw [specExtract, specFirstOcc_cons, if_pos hp]
      simp
    | false =>
      rw [splitFirstAux, if_neg (by simp [hp])]
      rw [specExtract, specFirstOcc_cons, if_neg (by simp [hp])]
      rw [ih]
      cases hocc : specFirstOcc sep rest with
      | none => simp [specExtract, hocc]
      | some i => simp [specExtract, hocc]

/-! Concrete backends over a one-point image type, used to witness the
theorems below on explicit inputs. -/

/-- A path decoder that always succeeds. -/
def demoDecodePath : String → Except ClassifierError Unit := fun _ => Except.ok ()

/-- A byte-buffer decoder that always succeeds. -/
def demoDecodeBytes : List Nat → Except ClassifierError Unit := fun _ => Except.ok ()

/-- A label table whose argmax name is plastic_bottle. -/
def demoId2label : Nat → String := fun _ => "plastic_bottle"

/-- A ResNet backend returning a fixed softmax vector with top value 0.8743. -/
def demoResnetP : Unit → Except ClassifierError (List ℚ) :=
  fun _ => Except.ok [8743/10000, 1257/10000]

/-- A CLIP backend returning a fixed softmax vector with top value 0.9102 at
index 0. -/
def demoClipP : Unit → List String → Except ClassifierError (List ℚ) :=
  fun _ _ => Except.ok [9102/10000, 898/10000, 0, 0, 0, 0, 0, 0]

/-- A byte-buffer decoder that fails, as PIL does on a corrupted buffer. -/
def failDecodeBytes : List Nat → Except ClassifierError Unit :=
  fun _ => Except.error ClassifierError.inputError

/-- A ResNet backend whose forward pass raises. -/
def failResnetP : Unit → Except ClassifierError (List ℚ) :=
  fun _ => Except.error ClassifierError.inferenceError

/-- A ResNet backend with a single certain class. -/
def unitResnetP : Unit → Except ClassifierError (List ℚ) := fun _ => Except.ok [1]

/-- A CLIP backend certain of category index 0. -/
def unitClipP : Unit → List String → Except ClassifierError (List ℚ) :=
  fun _ _ => Except.ok [1, 0, 0, 0, 0, 0, 0, 0]

/-- Claim C1: for an image whose Label Classifier top class is plastic_bottle
with rounded confidence 87.43 and whose Open-Vocabulary winning category
description is the recyclable-plastic description, classify returns exactly
the sentence embedding the Label confidence and the extracted waste type,
with the Open-Vocabulary confidence absent from the string. -/
theorem classify_scenario_plastic_bottle {Img : Type}
    (decodePath : String → Except ClassifierError Img)
    (decodeBytes : List Nat → Except ClassifierError Img)
    (id2label : Nat → String)
    (resnetP : Img → Except ClassifierError (List ℚ))
    (clipP : Img → List String → Except ClassifierError (List ℚ))
    (ref : ImageRef Img) (img : Img) (rprobs cprobs : List ℚ) (v : ℚ) (i : Nat)
    (himg : image_open decodePath decodeBytes ref = Except.ok img)
    (hr : resnetP img = Except.ok rprobs)
    (hrp : resnetFromProbs id2label rprobs =
      Except.ok ⟨"plastic_bottle", (8743 : ℚ) / 100⟩)
    (hc : clipP img clip_categories = Except.ok cprobs)
    (htm : torchMax cprobs = some (v, i))
    (hwin : clip_categories[i]? =
      some "recyclable plastic waste like plastic bottles and containers") :
    classify_image decodePath decodeBytes id2label resnetP clipP initState ref =
      (Except.ok
        "This is plastic_bottle with 87.43% confidence and the waste type is recyclable plastic waste",
        initState) := by
  have hcp : clipFromProbs clip_categories cprobs =
      Except.ok ⟨"recyclable plastic waste", round2 (v * 100)⟩ := by
    simp only [clipFromProbs, htm, hwin, pySplitHead_plastic]
  have he := classify_image_eq_ok decodePath decodeBytes id2label resnetP clipP
    initState ref img rprobs cprobs ⟨"plastic_bottle", (8743 : ℚ) / 100⟩
    ⟨"recyclable plastic waste", round2 (v * 100)⟩ himg hr hrp hc hcp
  rw [he]
  rw [show formatResult ⟨"plastic_bottle", (8743 : ℚ) / 100⟩
      ⟨"recyclable plastic waste", round2 (v * 100)⟩ =
      "This is " ++ "plastic_bottle" ++ " with " ++ formatConf ((8743 : ℚ) / 100) ++
        "% confidence " ++ "and the waste type is " ++ "recyclable plastic waste" from rfl]
  rw [formatConf_8743]
  rfl

/-- Witness for C1 at a concrete backend. -/
theorem classify_scenario_plastic_bottle_witness :
    classify_image demoDecodePath demoDecodeBytes demoId2label demoResnetP demoClipP
      initState (ImageRef.path "waste_image.jpg") =
      (Except.ok
        "This is plastic_bottle with 87.43% confidence and the waste type is recyclable plastic waste",
        initState) := by
  apply classify_scenario_plastic_bottle demoDecodePath demoDecodeBytes demoId2label
    demoResnetP demoClipP (ImageRef.path "waste_image.jpg") ()
    [8743/10000, 1257/10000] [9102/10000, 898/10000, 0, 0, 0, 0, 0, 0]
    (9102/10000) 0
  · rfl
  · rfl
  · have htm : torchMax [(8743 : ℚ)/10000, 1257/10000] = some (8743/10000, 0) := by
      norm_num [torchMax, torchMaxStep]
    have hrd : round2 ((8743 : ℚ)/10000 * 100) = (8743 : ℚ) / 100 := by
      norm_num [round2]
    simp only [demoResnetP, resnetFromProbs, htm, hrd, demoId2label]
  · rfl
  · norm_num [torchMax, torchMaxStep]
  · rfl

/-- Claim C2 (refuted by the code): the coordinator is claimed to accept an
already decoded in-memory image among its input forms; evaluating
classify_image on a decoded image shows the call fails before any
classification instead of returning a string, because PIL Image.open rejects
an Image object (and the UI-layer call classifier.classify(image) names a
method that does not exist on the class). -/
theorem classify_decoded_image_fails :
    classify_image demoDecodePath demoDecodeBytes demoId2label demoResnetP demoClipP
      initState (ImageRef.decoded ()) =
      (Except.error ClassifierError.inputError, initState) :=
  classify_image_decode_error demoDecodePath demoDecodeBytes demoId2label
    demoResnetP demoClipP initState (ImageRef.decoded ())
    ClassifierError.inputError rfl

/-- Claim C3: the Open-Vocabulary prediction reads the ordered category list
from the classifier state, and for the empty list the call fails with
InputError rather than returning any Prediction. -/
theorem clip_predict_empty_categories {Img : Type}
    (clipP : Img → List String → Except ClassifierError (List ℚ))
    (st : ClassifierState) (image : Img) (probs : List ℚ)
    (hcats : st.clip_categories = [])
    (hok : clipP image st.clip_categories = Except.ok probs)
    (hlen : probs.length = st.clip_categories.length) :
    get_clip_prediction clipP st image = (Except.error ClassifierError.inputError, st) ∧
    ∀ p : Prediction,
      (get_clip_prediction clipP st image).1 ≠ Except.ok p := by
  have hpnil : probs = [] := by
    rw [hcats] at hlen
    exact List.length_eq_zero.mp (by simpa using hlen)
  subst hpnil
  have h1 : get_clip_prediction clipP st image =
      (Except.error ClassifierError.inputError, st) := by
    simp only [get_clip_prediction, hok]
    rw [hcats]
    simp [clipFromProbs, torchMax]
  refine ⟨h1, ?_⟩
  intro p
  rw [h1]
  simp

/-- Witness for C3 at a concrete backend with an emptied category list. -/
theorem clip_predict_empty_categories_witness :
    get_clip_prediction (fun (_ : Unit) (_ : List String) => Except.ok ([] : List ℚ))
      ⟨[]⟩ () = (Except.error ClassifierError.inputError, ⟨[]⟩) ∧
    ∀ p : Prediction,
      (get_clip_prediction (fun (_ : Unit) (_ : List String) => Except.ok ([] : List ℚ))
        ⟨[]⟩ ()).1 ≠ Except.ok p :=
  clip_predict_empty_categories _ ⟨[]⟩ () [] rfl rfl rfl

/-- Claim C4: every returned category is obtained from exactly one element of
the supplied list by the split on the literal separator, and that split
agrees with the spec-side description: the clause preceding the first
occurrence of the separator, or the whole description verbatim when the
separator does not occur. -/
theorem clip_category_extraction (cats : List String) (probs : List ℚ)
    (p : Prediction) (h : clipFromProbs cats probs = Except.ok p) :
    (∀ d : String, pySplitHead " like " d = specExtractStr " like " d) ∧
    ∃ i, ∃ hi : i < cats.length,
      p.category = pySplitHead " like " (cats.get ⟨i, hi⟩) := by
  constructor
  · intro d
    unfold pySplitHead specExtractStr
    rw [splitFirstAux_eq_specExtract]
    decide
  · obtain ⟨v, i, htm, hc, hcat, hconf⟩ := clipFromProbs_ok cats probs p h
    exact ⟨i, hc, hcat⟩

/-- Witness for C4 at the concrete category list of the constructor. -/
theorem clip_category_extraction_witness :
    (∀ d : String, pySplitHead " like " d = specExtractStr " like " d) ∧
    ∃ i, ∃ hi : i < clip_categories.length,
      (Prediction.mk "recyclable plastic waste" 100).category =
        pySplitHead " like " (clip_categories.get ⟨i, hi⟩) := by
  apply clip_category_extraction clip_categories [1, 0, 0, 0, 0, 0, 0, 0]
  have htm : torchMax [(1 : ℚ), 0, 0, 0, 0, 0, 0, 0] = some (1, 0) := by
    norm_num [torchMax, torchMaxStep]
  have hrd : round2 ((1 : ℚ) * 100) = 100 := by norm_num [round2]
  simp only [clipFromProbs, htm, hrd]
  rw [show clip_categories[(0 : Nat)]? =
    some "recyclable plastic waste like plastic bottles and containers" from rfl]
  simp only [pySplitHead_plastic]

/-- Claim C5: a Label Classifier inference error fails the whole classify
call with InferenceError, the Open-Vocabulary Classifier result is irrelevant
to that call (the conclusion holds for every CLIP backend), no string is
returned, and more generally every sub-classifier error propagates as the
result of the call, never replaced by a degraded or default result. -/
theorem classify_error_propagation {Img : Type}
    (decodePath : String → Except ClassifierError Img)
    (decodeBytes : List Nat → Except ClassifierError Img)
    (ref : ImageRef Img) (img : Img)
    (himg : image_open decodePath decodeBytes ref = Except.ok img) :
    (∀ (id2label : Nat → String)
        (resnetP : Img → Except ClassifierError (List ℚ))
        (clipP : Img → List String → Except ClassifierError (List ℚ))
        (st : ClassifierState),
      resnetP img = Except.error ClassifierError.inferenceError →
      classify_image decodePath decodeBytes id2label resnetP clipP st ref =
        (Except.error ClassifierError.inferenceError, st)) ∧
    (∀ (id2label : Nat → String)
        (resnetP : Img → Except ClassifierError (List ℚ))
        (clipP : Img → List String → Except ClassifierError (List ℚ))
        (st : ClassifierState) (e : ClassifierError),
      resnetP img = Except.error e →
      classify_image decodePath decodeBytes id2label resnetP clipP st ref =
        (Except.error e, st)) ∧
    (∀ (id2label : Nat → String)
        (resnetP : Img → Except ClassifierError (List ℚ))
        (clipP : Img → List String → Except ClassifierError (List ℚ))
        (st : ClassifierState) (e : ClassifierError)
        (rprobs : List ℚ) (rp : Prediction),
      resnetP img = Except.ok rprobs →
      resnetFromProbs id2label rprobs = Except.ok rp →
      clipP img st.clip_categories = Except.error e →
      classify_image decodePath decodeBytes id2label resnetP clipP st ref =
        (Except.error e, st)) := by
  refine ⟨?_, ?_, ?_⟩
  · intro id2label resnetP clipP st hr
    exact classify_image_resnet_error _ _ _ _ _ _ _ _ _ himg hr
  · intro id2label resnetP clipP st e hr
    exact classify_image_resnet_error _ _ _ _ _ _ _ _ _ himg hr
  · intro id2label resnetP clipP st e rprobs rp hr hrp hc
    exact classify_image_clip_error _ _ _ _ _ _ _ _ _ _ _ himg hr hrp hc

/-- Witness for C5: with a raising ResNet backend the call fails with
InferenceError for the concrete CLIP backend. -/
theorem classify_error_propagation_witness :
    classify_image demoDecodePath demoDecodeBytes demoId2label failResnetP demoClipP
      initState (ImageRef.path "waste_image.jpg") =
      (Except.error ClassifierError.inferenceError, initState) :=
  (classify_error_propagation demoDecodePath demoDecodeBytes
    (ImageRef.path "waste_image.jpg") () rfl).1 demoId2label failResnetP
    demoClipP initState rfl

/-- Claim C6: when decoding the input fails, the classify call fails with
InputError, and it does so for every Label and Open-Vocabulary backend, so
neither sub-classifier model is consulted. -/
theorem classify_decode_failure {Img : Type}
    (decodePath : String → Except ClassifierError Img)
    (decodeBytes : List Nat → Except ClassifierError Img)
    (ref : ImageRef Img)
    (h : image_open decodePath decodeBytes ref = Except.error ClassifierError.inputError) :
    ∀ (id2label : Nat → String)
      (resnetP : Img → Except ClassifierError (List ℚ))
      (clipP : Img → List String → Except ClassifierError (List ℚ))
      (st : ClassifierState),
      classify_image decodePath decodeBytes id2label resnetP clipP st ref =
        (Except.error ClassifierError.inputError, st) := by
  intro id2label resnetP clipP st
  exact classify_image_decode_error _ _ _ _ _ _ _ _ h

/-- Witness for C6 at a corrupted byte buffer. -/
theorem classify_decode_failure_witness :
    classify_image demoDecodePath failDecodeBytes demoId2label demoResnetP demoClipP
      initState (ImageRef.bytes [0, 1, 2]) =
      (Except.error ClassifierError.inputError, initState) :=
  classify_decode_failure demoDecodePath failDecodeBytes (ImageRef.bytes [0, 1, 2])
    rfl demoId2label demoResnetP demoClipP initState

/-- Claim C7: the index selected by the Open-Vocabulary classifier achieves
the maximal score, and whenever any index achieves that same maximal score
the selected index is not greater, so on ties the lowest index in the
supplied ordered list wins, and the returned category comes from that
index. -/
theorem clip_argmax_lowest_index (cats : List String) (probs : List ℚ)
    (p : Prediction) (h : clipFromProbs cats probs = Except.ok p) :
    ∃ v i, torchMax probs = some (v, i) ∧
      (∀ j (hj : j < probs.length), probs.get ⟨j, hj⟩ ≤ v) ∧
      (∀ j (hj : j < probs.length), probs.get ⟨j, hj⟩ = v → i ≤ j) ∧
      ∃ hc : i < cats.length,
        p.category = pySplitHead " like " (cats.get ⟨i, hc⟩) := by
  obtain ⟨v, i, htm, hc, hcat, hconf⟩ := clipFromProbs_ok cats probs p h
  obtain ⟨hi, hget, hmax, hfirst⟩ := torchMax_spec probs v i htm
  refine ⟨v, i, htm, hmax, ?_, hc, hcat⟩
  intro j hj hjv
  by_contra hlt
  push_neg at hlt
  exact absurd hjv (ne_of_lt (hfirst j hj hlt))

/-- Witness for C7 on a score vector with a tie for the maximum. -/
theorem clip_argmax_lowest_index_witness :
    ∃ v i, torchMax [(1 : ℚ)/2, 1/2, 0, 0, 0, 0, 0, 0] = some (v, i) ∧
      (∀ j (hj : j < ([(1 : ℚ)/2, 1/2, 0, 0, 0, 0, 0, 0] : List ℚ).length),
        ([(1 : ℚ)/2, 1/2, 0, 0, 0, 0, 0, 0] : List ℚ).get ⟨j, hj⟩ ≤ v) ∧
      (∀ j (hj : j < ([(1 : ℚ)/2, 1/2, 0, 0, 0, 0, 0, 0] : List ℚ).length),
        ([(1 : ℚ)/2, 1/2, 0, 0, 0, 0, 0, 0] : List ℚ).get ⟨j, hj⟩ = v → i ≤ j) ∧
      ∃ hc : i < clip_categories.length,
        (Prediction.mk "recyclable plastic waste" 50).category =
          pySplitHead " like " (clip_categories.get ⟨i, hc⟩) := by
  apply clip_argmax_lowest_index clip_categories [(1 : ℚ)/2, 1/2, 0, 0, 0, 0, 0, 0]
  have htm : torchMax [(1 : ℚ)/2, 1/2, 0, 0, 0, 0, 0, 0] = some (1/2, 0) := by
    norm_num [torchMax, torchMaxStep]
  have hrd : round2 ((1 : ℚ)/2 * 100) = 50 := by norm_num [round2]
  simp only [clipFromProbs, htm, hrd]
  rw [show clip_categories[(0 : Nat)]? =
    some "recyclable plastic waste like plastic bottles and containers" from rfl]
  simp only [pySplitHead_plastic]

/-- Claim C8: on any valid softmax output (a nonempty vector of nonnegative
entries summing to one, as produced for every valid RGB image) the Label
Classifier returns a Prediction whose category is the id2label name of the
argmax index and whose confidence is the argmax probability times 100 rounded
to two decimals, hence between 0 and 100. -/
theorem resnet_prediction_contract (id2label : Nat → String) (probs : List ℚ)
    (hne : probs ≠ []) (hnn : ∀ q ∈ probs, 0 ≤ q) (hsum : probs.sum = 1) :
    ∃ p, resnetFromProbs id2label probs = Except.ok p ∧
      ∃ v i, torchMax probs = some (v, i) ∧
        (∃ hi : i < probs.length, probs.get ⟨i, hi⟩ = v) ∧
        (∀ j (hj : j < probs.length), probs.get ⟨j, hj⟩ ≤ v) ∧
        p.category = id2label i ∧
        p.confidence = round2 (v * 100) ∧
        0 ≤ p.confidence ∧ p.confidence ≤ 100 := by
  obtain ⟨v, i, htm⟩ := torchMax_isSome probs hne
  obtain ⟨hi, hget, hmax, hfirst⟩ := torchMax_spec probs v i htm
  have hok : resnetFromProbs id2label probs =
      Except.ok ⟨id2label i, round2 (v * 100)⟩ := by
    simp only [resnetFromProbs, htm]
  have hvmem : v ∈ probs := by
    rw [← hget]
    exact probs.get_mem i hi
  have hv0 : 0 ≤ v := hnn v hvmem
  have hv1 : v ≤ 1 := hsum ▸ List.single_le_sum hnn v hvmem
  have hb := round2_bounds (v * 100) (by nlinarith) (by nlinarith)
  exact ⟨⟨id2label i, round2 (v * 100)⟩, hok, v, i, htm, ⟨hi, hget⟩, hmax,
    rfl, rfl, hb.1, hb.2⟩

/-- Witness for C8 at a concrete softmax vector. -/
theorem resnet_prediction_contract_witness :
    ∃ p, resnetFromProbs demoId2label [(3 : ℚ)/4, 1/4] = Except.ok p ∧
      ∃ v i, torchMax [(3 : ℚ)/4, 1/4] = some (v, i) ∧
        (∃ hi : i < ([(3 : ℚ)/4, 1/4] : List ℚ).length,
          ([(3 : ℚ)/4, 1/4] : List ℚ).get ⟨i, hi⟩ = v) ∧
        (∀ j (hj : j < ([(3 : ℚ)/4, 1/4] : List ℚ).length),
          ([(3 : ℚ)/4, 1/4] : List ℚ).get ⟨j, hj⟩ ≤ v) ∧
        p.category = demoId2label i ∧
        p.confidence = round2 (v * 100) ∧
        0 ≤ p.confidence ∧ p.confidence ≤ 100 :=
  resnet_prediction_contract demoId2label [(3 : ℚ)/4, 1/4] (by simp)
    (by norm_num) (by norm_num)

/-- Claim C9: classification is deterministic and stateless across calls: a
classify call leaves the object state exactly as it found it, and repeating
the call, or either sub-classifier method, from the state left behind by the
first call produces the identical result, both Predictions and the combined
string included. -/
theorem classify_deterministic {Img : Type}
    (decodePath : String → Except ClassifierError Img)
    (decodeBytes : List Nat → Except ClassifierError Img)
    (id2label : Nat → String)
    (resnetP : Img → Except ClassifierError (List ℚ))
    (clipP : Img → List String → Except ClassifierError (List ℚ))
    (st : ClassifierState) (ref : ImageRef Img) (image : Img) :
    (classify_image decodePath decodeBytes id2label resnetP clipP st ref).2 = st ∧
    classify_image decodePath decodeBytes id2label resnetP clipP
        ((classify_image decodePath decodeBytes id2label resnetP clipP st ref).2) ref =
      classify_image decodePath decodeBytes id2label resnetP clipP st ref ∧
    get_resnet_prediction id2label resnetP
        ((get_resnet_prediction id2label resnetP st image).2) image =
      get_resnet_prediction id2label resnetP st image ∧
    get_clip_prediction clipP ((get_clip_prediction clipP st image).2) image =
      get_clip_prediction clipP st image := by
  refine ⟨classify_image_state _ _ _ _ _ _ _, ?_, ?_, ?_⟩
  · rw [classify_image_state]
  · rw [get_resnet_prediction_state]
  · rw [get_clip_prediction_state]

/-- Claim C10: the constructor installs exactly 8 nonempty category
descriptions, a classify call never mutates them, and the waste type embedded
in every successfully returned sentence is the split of one of those 8
descriptions, hence one of 8 fixed strings. -/
theorem classify_waste_type_invariant {Img : Type}
    (decodePath : String → Except ClassifierError Img)
    (decodeBytes : List Nat → Except ClassifierError Img)
    (id2label : Nat → String)
    (resnetP : Img → Except ClassifierError (List ℚ))
    (clipP : Img → List String → Except ClassifierError (List ℚ))
    (ref : ImageRef Img) (s : String) (st2 : ClassifierState)
    (h : classify_image decodePath decodeBytes id2label resnetP clipP initState ref =
      (Except.ok s, st2)) :
    clip_categories.length = 8 ∧ (∀ d ∈ clip_categories, d ≠ "") ∧
    st2 = initState ∧
    ∃ rp cp : Prediction, s = formatResult rp cp ∧
      cp.category ∈ ["recyclable plastic waste", "paper waste", "organic waste",
        "electronic waste", "glass waste", "metal waste", "hazardous waste",
        "general non-recyclable waste"] := by
  obtain ⟨hst, img, rprobs, rp, cprobs, cp, himg, hr, hrp, hc, hcp, hs⟩ :=
    classify_image_ok decodePath decodeBytes id2label resnetP clipP initState
      ref s st2 h
  refine ⟨by decide, by decide, hst, rp, cp, hs, ?_⟩
  obtain ⟨v, i, htm, hcidx, hcat, hconf⟩ :=
    clipFromProbs_ok initState.clip_categories cprobs cp hcp
  have hcidx2 : i < clip_categories.length := hcidx
  have hcat2 : cp.category = pySplitHead " like " (clip_categories.get ⟨i, hcidx2⟩) := hcat
  have hmap : clip_categories.map (pySplitHead " like ") =
      ["recyclable plastic waste", "paper waste", "organic waste",
        "electronic waste", "glass waste", "metal waste", "hazardous waste",
        "general non-recyclable waste"] := by decide
  have hlenm : i < (clip_categories.map (pySplitHead " like ")).length := by
    simpa using hcidx2
  have hg : (clip_categories.map (pySplitHead " like ")).get ⟨i, hlenm⟩ =
      pySplitHead " like " (clip_categories.get ⟨i, hcidx2⟩) := by
    simp [List.get_eq_getElem, List.getElem_map]
  have hmem := List.get_mem (clip_categories.map (pySplitHead " like ")) i hlenm
  rw [hg, hmap] at hmem
  rw [hcat2]
  exact hmem

/-- Witness for C10 at a concrete successful classification. -/
theorem classify_waste_type_invariant_witness :
    clip_categories.length = 8 ∧ (∀ d ∈ clip_categories, d ≠ "") ∧
    initState = initState ∧
    ∃ rp cp : Prediction,
      "This is plastic_bottle with 100.0% confidence and the waste type is recyclable plastic waste" =
        formatResult rp cp ∧
      cp.category ∈ ["recyclable plastic waste", "paper waste", "organic waste",
        "electronic waste", "glass waste", "metal waste", "hazardous waste",
        "general non-recyclable waste"] := by
  apply classify_waste_type_invariant demoDecodePath demoDecodeBytes demoId2label
    unitResnetP unitClipP (ImageRef.path "waste_image.jpg")
  have hrp : resnetFromProbs demoId2label [1] = Except.ok ⟨"plastic_bottle", 100⟩ := by
    have htm : torchMax [(1 : ℚ)] = some (1, 0) := by norm_num [torchMax, torchMaxStep]
    have hrd : round2 ((1 : ℚ) * 100) = 100 := by norm_num [round2]
    simp only [resnetFromProbs, htm, hrd, demoId2label]
  have hcp : clipFromProbs clip_categories [1, 0, 0, 0, 0, 0, 0, 0] =
      Except.ok ⟨"recyclable plastic waste", 100⟩ := by
    have htm : torchMax [(1 : ℚ), 0, 0, 0, 0, 0, 0, 0] = some (1, 0) := by
      norm_num [torchMax, torchMaxStep]
    have hrd : round2 ((1 : ℚ) * 100) = 100 := by norm_num [round2]
    simp only [clipFromProbs, htm, hrd]
    rw [show clip_categories[(0 : Nat)]? =
      some "recyclable plastic waste like plastic bottles and containers" from rfl]
    simp only [pySplitHead_plastic]
  have he := classify_image_eq_ok demoDecodePath demoDecodeBytes demoId2label
    unitResnetP unitClipP initState (ImageRef.path "waste_image.jpg") ()
    [1] [1, 0, 0, 0, 0, 0, 0, 0] ⟨"plastic_bottle", 100⟩
    ⟨"recyclable plastic waste", 100⟩ rfl rfl hrp rfl hcp
  rw [he]
  rw [show formatResult ⟨"plastic_bottle", (100 : ℚ)⟩ ⟨"recyclable plastic waste", (100 : ℚ)⟩ =
      "This is " ++ "plastic_bottle" ++ " with " ++ formatConf (100 : ℚ) ++
        "% confidence " ++ "and the waste type is " ++ "recyclable plastic waste" from rfl]
  rw [formatConf_100]
  rfl
